import Mathlib

/-!
# Verification of the ESP32 flight-controller safety layer

Shallow embedding of `src/firmware/esp32-flight-controller/safety_layer.h`.

Modelling conventions:
* The C `int` and `long` fields are modelled as `Int`; the claims under
  verification only involve values far from the 32-bit overflow boundary,
  where signed overflow would be undefined behaviour anyway.
* `unsigned long` timestamps (`millis()` values and the two timeout
  durations) are modelled as `Nat`; the idiomatic wrap-around subtraction
  `millis() - t` on a 32-bit unsigned value is modelled explicitly as
  `u32sub`, i.e. `(now - t) mod 2^32`.
* `float` fields (`minBatteryVoltage`, `lastBatteryVoltage`) are modelled
  as `ℚ`.  The code only stores these values and compares them with `<`,
  so any ordered field is an exact model of the float behaviour on the
  (non-NaN) values involved.
* The global mutable `safetyConfig` / `safetyState` singletons become
  explicit values threaded through each operation; `millis()` becomes a
  `now : Nat` parameter.
-/

/-- `SafetyConfig` struct (safety_layer.h lines 26-33). -/
structure SafetyConfig where
  maxMotorPWM : Int
  emergencyStopCm : Int
  speedReduceCm : Int
  maxContinuousMs : Nat
  hostTimeoutMs : Nat
  minBatteryVoltage : ℚ
deriving Repr, DecidableEq

/-- `SafetyState` struct (safety_layer.h lines 35-43). -/
structure SafetyState where
  emergencyStopped : Bool
  motorStartTime : Nat
  lastHostCommandTime : Nat
  currentMaxPWM : Int
  violations : Int
  motorRunning : Bool
  lastBatteryVoltage : ℚ
deriving Repr, DecidableEq

/-- Default configuration initializer (safety_layer.h lines 46-53). -/
def defaultSafetyConfig : SafetyConfig :=
  { maxMotorPWM := 200
    emergencyStopCm := 8
    speedReduceCm := 20
    maxContinuousMs := 30000
    hostTimeoutMs := 5000
    minBatteryVoltage := 3 }

/-- Default state initializer (safety_layer.h lines 55-63). -/
def defaultSafetyState : SafetyState :=
  { emergencyStopped := false
    motorStartTime := 0
    lastHostCommandTime := 0
    currentMaxPWM := 200
    violations := 0
    motorRunning := false
    lastBatteryVoltage := 21 / 5 }

/-- 32-bit unsigned wrap-around subtraction `a - b` on `unsigned long`
(`millis() - timestamp` in the source).  For `a b < 2^32` this is exactly
the value the hardware computes. -/
def u32sub (a b : Nat) : Nat :=
  (a + 2 ^ 32 - b % 2 ^ 32) % 2 ^ 32

/-- `safety_clamp_motors` (safety_layer.h lines 86-102): clamp a requested
PWM value to the safe maximum; returns 0 if emergency stopped. -/
def safety_clamp_motors (cfg : SafetyConfig) (s : SafetyState)
    (requestedPWM : Int) : Int :=
  if s.emergencyStopped then 0
  else
    let clamped := requestedPWM
    let clamped := if clamped > s.currentMaxPWM then s.currentMaxPWM else clamped
    let clamped := if clamped > cfg.maxMotorPWM then cfg.maxMotorPWM else clamped
    if clamped < 0 then 0 else clamped

/-- `safety_host_heartbeat` (safety_layer.h lines 108-110). -/
def safety_host_heartbeat (now : Nat) (s : SafetyState) : SafetyState :=
  { s with lastHostCommandTime := now % 2 ^ 32 }

/-- `safety_motor_started` (safety_layer.h lines 115-118). -/
def safety_motor_started (now : Nat) (s : SafetyState) : SafetyState :=
  { s with motorStartTime := now % 2 ^ 32, motorRunning := true }

/-- `safety_motor_stopped` (safety_layer.h lines 123-125). -/
def safety_motor_stopped (s : SafetyState) : SafetyState :=
  { s with motorRunning := false }

/-- `safety_emergency_stop` (safety_layer.h lines 131-134): latch the
emergency flag and zero the PWM ceiling. -/
def safety_emergency_stop (s : SafetyState) : SafetyState :=
  { s with emergencyStopped := true, currentMaxPWM := 0 }

/-- `safety_reset` (safety_layer.h lines 139-143): clear the latch, restore
the ceiling from the config, clear the motor-running flag. -/
def safety_reset (cfg : SafetyConfig) (s : SafetyState) : SafetyState :=
  { s with emergencyStopped := false
           currentMaxPWM := cfg.maxMotorPWM
           motorRunning := false }

/-- `safety_check` (safety_layer.h lines 150-170): evaluate the heartbeat
timeout and the continuous-run timeout, then report `!emergencyStopped`.
Returns the boolean result together with the updated state. -/
def safety_check (cfg : SafetyConfig) (now : Nat) (s : SafetyState) :
    Bool × SafetyState :=
  let s1 :=
    if u32sub now s.lastHostCommandTime > cfg.hostTimeoutMs then
      let s' := safety_emergency_stop s
      { s' with violations := s'.violations + 1 }
    else s
  let s2 :=
    if s1.motorRunning = true ∧ u32sub now s1.motorStartTime > cfg.maxContinuousMs then
      let s' := safety_emergency_stop s1
      { s' with violations := s'.violations + 1 }
    else s1
  if s2.emergencyStopped then (false, s2) else (true, s2)

/-- Arduino's `map()` (used at safety_layer.h lines 184-190): linear
interpolation with C truncating integer division. -/
def arduino_map (x in_min in_max out_min out_max : Int) : Int :=
  Int.tdiv ((x - in_min) * (out_max - out_min)) (in_max - in_min) + out_min

/-- `safety_update_distance` (safety_layer.h lines 177-194). -/
def safety_update_distance (cfg : SafetyConfig) (s : SafetyState)
    (distanceCm : Int) : SafetyState :=
  if distanceCm ≤ cfg.emergencyStopCm then
    safety_emergency_stop s
  else if distanceCm ≤ cfg.speedReduceCm then
    { s with currentMaxPWM :=
        (arduino_map distanceCm cfg.emergencyStopCm cfg.speedReduceCm 0
          cfg.maxMotorPWM) }
  else
    { s with currentMaxPWM := cfg.maxMotorPWM }

/-- `safety_update_battery` (safety_layer.h lines 200-205). -/
def safety_update_battery (cfg : SafetyConfig) (s : SafetyState)
    (voltage : ℚ) : SafetyState :=
  let s' := { s with lastBatteryVoltage := voltage }
  if voltage < cfg.minBatteryVoltage then safety_emergency_stop s' else s'

/-- `safety_update_config` (safety_layer.h lines 211-216): replace the
config wholesale; if not latched, reset the ceiling to the new maximum. -/
def safety_update_config (s : SafetyState) (newConfig : SafetyConfig) :
    SafetyConfig × SafetyState :=
  (newConfig,
   if s.emergencyStopped then s
   else { s with currentMaxPWM := newConfig.maxMotorPWM })

/-- `StepperSafetyConfig` struct (safety_layer.h lines 224-229). -/
structure StepperSafetyConfig where
  maxStepsPerSecond : Int
  maxContinuousSteps : Int
  hostHeartbeatMs : Nat
  maxCoilCurrentMa : Int
deriving Repr, DecidableEq

/-- Default stepper configuration (safety_layer.h lines 231-236). -/
def defaultStepperSafetyConfig : StepperSafetyConfig :=
  { maxStepsPerSecond := 1024
    maxContinuousSteps := 40960
    hostHeartbeatMs := 2000
    maxCoilCurrentMa := 300 }

/-- `stepper_safety_clamp_speed` (safety_layer.h lines 241-252). -/
def stepper_safety_clamp_speed (scfg : StepperSafetyConfig) (s : SafetyState)
    (requestedSpeed : Int) : Int :=
  if s.emergencyStopped then 0
  else if requestedSpeed > scfg.maxStepsPerSecond then scfg.maxStepsPerSecond
  else if requestedSpeed < 0 then 0
  else requestedSpeed

/-- `stepper_safety_clamp_steps` (safety_layer.h lines 257-268). -/
def stepper_safety_clamp_steps (scfg : StepperSafetyConfig) (s : SafetyState)
    (requestedSteps : Int) : Int :=
  if s.emergencyStopped then 0
  else if requestedSteps > scfg.maxContinuousSteps then scfg.maxContinuousSteps
  else if requestedSteps < -scfg.maxContinuousSteps then -scfg.maxContinuousSteps
  else requestedSteps

/-- `stepper_safety_check` (safety_layer.h lines 274-282): first the
shorter stepper heartbeat timeout against the same last-host-command
timestamp; on timeout, emergency-stop, count a violation and return
`false` at once; otherwise delegate to `safety_check`. -/
def stepper_safety_check (scfg : StepperSafetyConfig) (cfg : SafetyConfig)
    (now : Nat) (s : SafetyState) : Bool × SafetyState :=
  if u32sub now s.lastHostCommandTime > scfg.hostHeartbeatMs then
    let s' := safety_emergency_stop s
    (false, { s' with violations := s'.violations + 1 })
  else
    safety_check cfg now s

/-- Spec-side clipping operator: `clip lo hi x` is `x` clipped into
`[lo, hi]` (from the spec's words "returns `requested` clipped into
`[0, min(currentCeiling, config.maxOutput)]`"). -/
def clip (lo hi x : Int) : Int :=
  max lo (min hi x)

/-- C1: for every integer requested value, if the emergency latch is set
then `safety_clamp_motors` returns 0; otherwise it returns the request
clipped into `[0, min(currentCeiling, config.maxOutput)]`; the result is
never negative, and (whenever that interval is well formed, i.e. its upper
end is nonnegative) never exceeds the current ceiling nor the configured
maximum.  Being a total function, no input is rejected. -/
theorem C1_clamp_output (cfg : SafetyConfig) (s : SafetyState)
    (requested : Int) :
    (s.emergencyStopped = true → safety_clamp_motors cfg s requested = 0) ∧
    (s.emergencyStopped = false →
      safety_clamp_motors cfg s requested =
        clip 0 (min s.currentMaxPWM cfg.maxMotorPWM) requested) ∧
    0 ≤ safety_clamp_motors cfg s requested ∧
    (0 ≤ min s.currentMaxPWM cfg.maxMotorPWM →
      safety_clamp_motors cfg s requested ≤ s.currentMaxPWM ∧
      safety_clamp_motors cfg s requested ≤ cfg.maxMotorPWM) := by
  refine ⟨fun h => by simp [safety_clamp_motors, h], fun h => ?_, ?_,
    fun hmin => ?_⟩
  · simp only [safety_clamp_motors, clip, h, Bool.false_eq_true, if_false,
      min_def, max_def]
    split_ifs <;> omega
  · cases h : s.emergencyStopped <;>
      simp only [safety_clamp_motors, h, Bool.false_eq_true, if_false,
        if_true, reduceIte] <;>
      [skip; omega]
    split_ifs <;> omega
  · cases h : s.emergencyStopped <;>
      simp only [safety_clamp_motors, h, Bool.false_eq_true, if_false,
        if_true, reduceIte]
    · split_ifs <;> constructor <;> omega
    · rw [min_def] at hmin; constructor <;> split_ifs at hmin <;> omega

/-- C1 witness: at concrete inputs, a latched state clamps 150 to 0, and
the default (unlatched) state clamps 250 to 200. -/
theorem C1_clamp_output_witness :
    safety_clamp_motors defaultSafetyConfig
      (safety_emergency_stop defaultSafetyState) 150 = 0 ∧
    safety_clamp_motors defaultSafetyConfig defaultSafetyState 250 = 200 := by
  refine ⟨(C1_clamp_output defaultSafetyConfig
    (safety_emergency_stop defaultSafetyState) 150).1 (by decide), ?_⟩
  have h := (C1_clamp_output defaultSafetyConfig defaultSafetyState 250).2.1
    (by decide)
  rw [h]; decide

/-- C2: the claimed invariant `emergencyLatch = true ⇒ currentCeiling = 0`
is NOT preserved by `safety_update_distance`: from the latched state
produced by `safety_emergency_stop` (latch set, ceiling 0, invariant
holds), `safety_update_distance` with distance 25 under the default config
leaves the latch set but raises the ceiling back to 200.  This theorem
evaluates the code at that failing input. -/
theorem C2_latch_zero_ceiling_violated :
    (safety_emergency_stop defaultSafetyState).emergencyStopped = true ∧
    (safety_emergency_stop defaultSafetyState).currentMaxPWM = 0 ∧
    (safety_update_distance defaultSafetyConfig
      (safety_emergency_stop defaultSafetyState) 25).emergencyStopped = true ∧
    (safety_update_distance defaultSafetyConfig
      (safety_emergency_stop defaultSafetyState) 25).currentMaxPWM = 200 := by
  decide

/-- C3: `safety_check` returns false iff the emergency latch is true when
the return is computed, i.e. after evaluating the two timeout triggers the
returned boolean is the negation of the latch flag of the updated state. -/
theorem C3_check_returns_not_latched (cfg : SafetyConfig) (now : Nat)
    (s : SafetyState) :
    (safety_check cfg now s).1 = !(safety_check cfg now s).2.emergencyStopped := by
  by_cases h1 : u32sub now s.lastHostCommandTime > cfg.hostTimeoutMs <;>
  by_cases h2 : s.motorRunning = true ∧
    u32sub now s.motorStartTime > cfg.maxContinuousMs <;>
  cases hs : s.emergencyStopped <;>
  simp [safety_check, safety_emergency_stop, h1, h2, hs]

/-- C4: for `emergencyStopCm < d ≤ speedReduceCm`, `safety_update_distance`
sets the ceiling to `(d − emergencyStopCm) × maxOutput / (speedReduceCm −
emergencyStopCm)` with truncating (toward-zero) integer division; with the
default config `{maxOutput=200, emergencyStopCm=8, speedReduceCm=20}`,
`update_distance(14)` yields ceiling 100; and for `d > speedReduceCm`
(under the spec's zone ordering `emergencyStopCm ≤ speedReduceCm`) it
restores the ceiling to `maxOutput`. -/
theorem C4_update_distance_interpolation (cfg : SafetyConfig)
    (s : SafetyState) (d : Int) :
    (cfg.emergencyStopCm < d → d ≤ cfg.speedReduceCm →
      (safety_update_distance cfg s d).currentMaxPWM =
        Int.tdiv ((d - cfg.emergencyStopCm) * cfg.maxMotorPWM)
          (cfg.speedReduceCm - cfg.emergencyStopCm)) ∧
    (cfg.emergencyStopCm ≤ cfg.speedReduceCm → cfg.speedReduceCm < d →
      (safety_update_distance cfg s d).currentMaxPWM = cfg.maxMotorPWM) ∧
    (safety_update_distance defaultSafetyConfig defaultSafetyState
      14).currentMaxPWM = 100 := by
  refine ⟨fun h1 h2 => ?_, fun h1 h2 => ?_, by decide⟩
  · simp only [safety_update_distance, arduino_map,
      if_neg (by omega : ¬(d ≤ cfg.emergencyStopCm)), if_pos h2]
    ring_nf
  · simp only [safety_update_distance,
      if_neg (by omega : ¬(d ≤ cfg.emergencyStopCm)),
      if_neg (by omega : ¬(d ≤ cfg.speedReduceCm))]

/-- C4 witness: the default-config scenario, `update_distance(14)` gives
`(14 − 8) × 200 / (20 − 8) = 100`. -/
theorem C4_witness :
    (safety_update_distance defaultSafetyConfig defaultSafetyState
      14).currentMaxPWM = 100 := by
  have h := (C4_update_distance_interpolation defaultSafetyConfig
    defaultSafetyState 14).1 (by decide) (by decide)
  rw [h]; decide

/-- C6: `safety_reset`, from any state with no precondition, clears the
latch, sets the ceiling to `config.maxOutput`, clears the motor-running
flag, and leaves the violation counter and every other state field
unchanged. -/
theorem C6_reset_frame (cfg : SafetyConfig) (s : SafetyState) :
    (safety_reset cfg s).emergencyStopped = false ∧
    (safety_reset cfg s).currentMaxPWM = cfg.maxMotorPWM ∧
    (safety_reset cfg s).motorRunning = false ∧
    (safety_reset cfg s).violations = s.violations ∧
    (safety_reset cfg s).motorStartTime = s.motorStartTime ∧
    (safety_reset cfg s).lastHostCommandTime = s.lastHostCommandTime ∧
    (safety_reset cfg s).lastBatteryVoltage = s.lastBatteryVoltage :=
  ⟨rfl, rfl, rfl, rfl, rfl, rfl, rfl⟩

/-- C7: for `d ≤ emergencyStopCm`, `safety_update_distance` sets the latch;
`safety_update_battery` always records the voltage and, when it is below
`minBatteryVoltage`, sets the latch; in both cases the violation counter is
left unchanged. -/
theorem C7_latch_without_counting (cfg : SafetyConfig) (s : SafetyState)
    (d : Int) (v : ℚ) :
    (d ≤ cfg.emergencyStopCm →
      (safety_update_distance cfg s d).emergencyStopped = true ∧
      (safety_update_distance cfg s d).violations = s.violations) ∧
    (safety_update_battery cfg s v).lastBatteryVoltage = v ∧
    (v < cfg.minBatteryVoltage →
      (safety_update_battery cfg s v).emergencyStopped = true ∧
      (safety_update_battery cfg s v).violations = s.violations) := by
  refine ⟨fun h => ?_, ?_, fun h => ?_⟩
  · simp [safety_update_distance, safety_emergency_stop, if_pos h]
  · by_cases h : v < cfg.minBatteryVoltage <;>
      simp [safety_update_battery, safety_emergency_stop, h]
  · simp [safety_update_battery, safety_emergency_stop, if_pos h]

/-- C7 witness: distance 5 ≤ 8 latches; battery 2.9 V < 3.0 V latches and
leaves the counter at its previous value. -/
theorem C7_witness :
    (safety_update_distance defaultSafetyConfig defaultSafetyState
      5).emergencyStopped = true ∧
    (safety_update_battery defaultSafetyConfig defaultSafetyState
      (29 / 10)).emergencyStopped = true ∧
    (safety_update_battery defaultSafetyConfig defaultSafetyState
      (29 / 10)).violations = defaultSafetyState.violations :=
  ⟨((C7_latch_without_counting defaultSafetyConfig defaultSafetyState 5
      (29 / 10)).1 (by decide)).1,
   ((C7_latch_without_counting defaultSafetyConfig defaultSafetyState 5
      (29 / 10)).2.2 (by norm_num [defaultSafetyConfig])).1,
   ((C7_latch_without_counting defaultSafetyConfig defaultSafetyState 5
      (29 / 10)).2.2 (by norm_num [defaultSafetyConfig])).2⟩

/-- C5: in a `safety_check` call, if the heartbeat timeout has expired the
latch is set and the counter is incremented once; if additionally the
motor-running trigger fires, the counter is incremented once more (both
triggers in one cycle increment by exactly two); and in the concrete
scenario — heartbeat at t=0, `hostTimeoutMs` 5000, motor not running,
check at t=5001 — the latch is set and the counter grows by exactly 1. -/
theorem C5_check_trigger_counting (cfg : SafetyConfig) (now : Nat)
    (s : SafetyState) :
    (u32sub now s.lastHostCommandTime > cfg.hostTimeoutMs ∧
     s.motorRunning = true ∧ u32sub now s.motorStartTime > cfg.maxContinuousMs →
      (safety_check cfg now s).2.violations = s.violations + 2 ∧
      (safety_check cfg now s).2.emergencyStopped = true) ∧
    (u32sub now s.lastHostCommandTime > cfg.hostTimeoutMs ∧
     ¬(s.motorRunning = true ∧ u32sub now s.motorStartTime > cfg.maxContinuousMs) →
      (safety_check cfg now s).2.violations = s.violations + 1 ∧
      (safety_check cfg now s).2.emergencyStopped = true) ∧
    ((safety_check defaultSafetyConfig 5001
        (safety_host_heartbeat 0 defaultSafetyState)).2.violations =
      (safety_host_heartbeat 0 defaultSafetyState).violations + 1 ∧
     (safety_check defaultSafetyConfig 5001
        (safety_host_heartbeat 0 defaultSafetyState)).2.emergencyStopped = true) := by
  refine ⟨fun ⟨h1, h2⟩ => ?_, fun ⟨h1, h2⟩ => ?_, by decide⟩
  · simp [safety_check, safety_emergency_stop, h1, h2]
    omega
  · simp [safety_check, safety_emergency_stop, h1, h2]

/-- C5 witness: check at t=5001 on the default state (heartbeat recorded
at t=0, motor not running) latches and counts exactly one violation. -/
theorem C5_witness :
    (safety_check defaultSafetyConfig 5001 defaultSafetyState).2.violations =
      defaultSafetyState.violations + 1 ∧
    (safety_check defaultSafetyConfig 5001
      defaultSafetyState).2.emergencyStopped = true :=
  (C5_check_trigger_counting defaultSafetyConfig 5001 defaultSafetyState).2.1
    ⟨by decide, by decide⟩

/-- C9: `stepper_safety_check` first compares the elapsed time since the
same last-host-command timestamp against the stepper heartbeat timeout;
on timeout it emergency-stops, increments the counter, and returns false
immediately — the result state is exactly the stepper-trigger update, so
the base check (and its motor-runtime trigger) is not run; otherwise the
call is exactly the base `safety_check`. -/
theorem C9_stepper_check_short_circuit (scfg : StepperSafetyConfig)
    (cfg : SafetyConfig) (now : Nat) (s : SafetyState) :
    (u32sub now s.lastHostCommandTime > scfg.hostHeartbeatMs →
      stepper_safety_check scfg cfg now s =
        (false, { safety_emergency_stop s with
                    violations := (safety_emergency_stop s).violations + 1 })) ∧
    (¬u32sub now s.lastHostCommandTime > scfg.hostHeartbeatMs →
      stepper_safety_check scfg cfg now s = safety_check cfg now s) := by
  constructor <;> intro h <;>
    simp [stepper_safety_check, h]

/-- C9 witness: with the default stepper timeout (2000 ms), a check at
t=2001 with the last host command at t=0 short-circuits: latch set, one
violation counted, false returned. -/
theorem C9_witness :
    stepper_safety_check defaultStepperSafetyConfig defaultSafetyConfig 2001
      defaultSafetyState =
      (false, { safety_emergency_stop defaultSafetyState with
                  violations :=
                    (safety_emergency_stop defaultSafetyState).violations + 1 }) :=
  (C9_stepper_check_short_circuit defaultStepperSafetyConfig
    defaultSafetyConfig 2001 defaultSafetyState).1 (by decide)

/-- C10: whenever the elapsed time since the last heartbeat exceeds
`hostTimeoutMs`, `safety_check` increments the violation counter — with no
condition on the latch, so this holds when the latch is already set; the
call leaves `lastHostCommandTime` unchanged, so until a new heartbeat each
further expired check counts again (once per call when the motor trigger
is not firing). -/
theorem C10_check_counts_every_expired_call (cfg : SafetyConfig) (now : Nat)
    (s : SafetyState)
    (h : u32sub now s.lastHostCommandTime > cfg.hostTimeoutMs) :
    (safety_check cfg now s).2.violations =
      s.violations + 1 +
        (if s.motorRunning = true ∧ u32sub now s.motorStartTime > cfg.maxContinuousMs
         then 1 else 0) ∧
    s.violations + 1 ≤ (safety_check cfg now s).2.violations ∧
    (safety_check cfg now s).2.emergencyStopped = true ∧
    (safety_check cfg now s).2.lastHostCommandTime = s.lastHostCommandTime := by
  by_cases h2 : s.motorRunning = true ∧
      u32sub now s.motorStartTime > cfg.maxContinuousMs <;>
    simp [safety_check, safety_emergency_stop, h, h2]

/-- C10 witness: a check at t=6000 on an already-latched state (heartbeat
timestamp 0, timeout 5000) still counts one more violation. -/
theorem C10_witness :
    (safety_check defaultSafetyConfig 6000
      (safety_emergency_stop defaultSafetyState)).2.violations =
      (safety_emergency_stop defaultSafetyState).violations + 1 ∧
    (safety_check defaultSafetyConfig 6000
      (safety_emergency_stop defaultSafetyState)).2.emergencyStopped = true := by
  have h := C10_check_counts_every_expired_call defaultSafetyConfig 6000
    (safety_emergency_stop defaultSafetyState) (by decide)
  exact ⟨by rw [h.1]; decide, h.2.2.1⟩

/-- The claimed invariant of C8: `0 ≤ currentCeiling ≤ config.maxOutput`. -/
def ceilingInvariant (cfg : SafetyConfig) (s : SafetyState) : Prop :=
  0 ≤ s.currentMaxPWM ∧ s.currentMaxPWM ≤ cfg.maxMotorPWM

/-- Bounds for the truncating-division interpolation `a * M / b` used by
`arduino_map` with output range `[0, M]`: for `0 < a ≤ b` and `0 ≤ M` the
quotient lies in `[0, M]`. -/
theorem tdiv_interp_bounds (a b M : Int) (h1 : 0 < a) (h2 : a ≤ b)
    (hM : 0 ≤ M) : 0 ≤ Int.tdiv (a * M) b ∧ Int.tdiv (a * M) b ≤ M := by
  have hb : 0 < b := lt_of_lt_of_le h1 h2
  have hnum : 0 ≤ a * M := mul_nonneg h1.le hM
  have heq : Int.tdiv (a * M) b = a * M / b := Int.tdiv_eq_ediv hnum hb.le
  refine ⟨heq ▸ Int.ediv_nonneg hnum hb.le, ?_⟩
  rw [heq]
  calc a * M / b ≤ b * M / b :=
        Int.ediv_le_ediv hb (mul_le_mul_of_nonneg_right h2 hM)
    _ = M := Int.mul_ediv_cancel_left M hb.ne'

/-- C8 counterexample: the invariant `0 ≤ currentCeiling ≤ config.maxOutput`
is NOT preserved by every operation from every state in which it holds:
from the default state (ceiling 200, max 200, invariant holds),
`safety_update_config` with a new config whose `maxMotorPWM` is −5 yields
ceiling −5 against maximum −5, violating `0 ≤ currentCeiling`. -/
theorem C8_counterexample :
    (0 ≤ defaultSafetyState.currentMaxPWM ∧
      defaultSafetyState.currentMaxPWM ≤ defaultSafetyConfig.maxMotorPWM) ∧
    ¬(0 ≤ (safety_update_config defaultSafetyState
          { defaultSafetyConfig with maxMotorPWM := -5 }).2.currentMaxPWM ∧
      (safety_update_config defaultSafetyState
          { defaultSafetyConfig with maxMotorPWM := -5 }).2.currentMaxPWM ≤
        (safety_update_config defaultSafetyState
          { defaultSafetyConfig with maxMotorPWM := -5 }).1.maxMotorPWM) := by
  decide

/-- C8 amended: every operation of the monitor other than
`safety_update_config` preserves `0 ≤ currentCeiling ≤ config.maxOutput`
from any state in which it holds (including `safety_update_distance`'s
interpolated ceiling); `safety_update_config` preserves it provided the
new config's maximum is nonnegative and, when the latch is set (so the
ceiling is not recomputed), at least the current ceiling. -/
theorem C8_ceiling_invariant_preserved (cfg newCfg : SafetyConfig)
    (s : SafetyState) (now : Nat) (d : Int) (v : ℚ)
    (hInv : ceilingInvariant cfg s) :
    ceilingInvariant cfg (safety_emergency_stop s) ∧
    ceilingInvariant cfg (safety_reset cfg s) ∧
    ceilingInvariant cfg (safety_host_heartbeat now s) ∧
    ceilingInvariant cfg (safety_motor_started now s) ∧
    ceilingInvariant cfg (safety_motor_stopped s) ∧
    ceilingInvariant cfg (safety_check cfg now s).2 ∧
    ceilingInvariant cfg (safety_update_distance cfg s d) ∧
    ceilingInvariant cfg (safety_update_battery cfg s v) ∧
    (0 ≤ newCfg.maxMotorPWM →
      (s.emergencyStopped = true → s.currentMaxPWM ≤ newCfg.maxMotorPWM) →
      ceilingInvariant (safety_update_config s newCfg).1
        (safety_update_config s newCfg).2) := by
  obtain ⟨hl, hr⟩ := hInv
  refine ⟨⟨le_rfl, hl.trans hr⟩, ⟨hl.trans hr, le_rfl⟩, ⟨hl, hr⟩, ⟨hl, hr⟩,
    ⟨hl, hr⟩, ?_, ?_, ?_, fun hpos hlatch => ?_⟩
  · by_cases h1 : u32sub now s.lastHostCommandTime > cfg.hostTimeoutMs <;>
    by_cases h2 : s.motorRunning = true ∧
        u32sub now s.motorStartTime > cfg.maxContinuousMs <;>
    cases hs : s.emergencyStopped <;>
    simp [safety_check, safety_emergency_stop, ceilingInvariant, h1, h2, hs] <;>
    omega
  · by_cases hd1 : d ≤ cfg.emergencyStopCm
    · simp [safety_update_distance, safety_emergency_stop, hd1,
        ceilingInvariant]
      omega
    · by_cases hd2 : d ≤ cfg.speedReduceCm
      · have hb := tdiv_interp_bounds (d - cfg.emergencyStopCm)
          (cfg.speedReduceCm - cfg.emergencyStopCm) cfg.maxMotorPWM
          (by omega) (by omega) (by omega)
        simp only [safety_update_distance, arduino_map, hd1, hd2, if_false,
          if_true, reduceIte, sub_zero, add_zero, ceilingInvariant]
        exact hb
      · simp [safety_update_distance, hd1, hd2, ceilingInvariant]
        omega
  · by_cases hv : v < cfg.minBatteryVoltage <;>
      simp [safety_update_battery, safety_emergency_stop, hv,
        ceilingInvariant] <;>
      omega
  · cases hs : s.emergencyStopped
    · constructor <;> simp [safety_update_config, hs] <;> omega
    · have h3 := hlatch hs
      constructor <;> simp [safety_update_config, hs] <;> omega

/-- C8 witness: from the default state the invariant survives a distance
update to 14 cm and a config replacement by the (nonnegative) default
config. -/
theorem C8_witness :
    ceilingInvariant defaultSafetyConfig
      (safety_update_distance defaultSafetyConfig defaultSafetyState 14) ∧
    ceilingInvariant
      (safety_update_config defaultSafetyState defaultSafetyConfig).1
      (safety_update_config defaultSafetyState defaultSafetyConfig).2 := by
  have h := C8_ceiling_invariant_preserved defaultSafetyConfig
    defaultSafetyConfig defaultSafetyState 0 14 3 ⟨by decide, by decide⟩
  exact ⟨h.2.2.2.2.2.2.1,
    h.2.2.2.2.2.2.2.2 (by decide) (fun hc => absurd hc (by decide))⟩
